import Mathlib

/-!
Verification development for the Timebar taskbar-timer application.

The definitions below are a shallow embedding of the TypeScript sources:
`src/main.ts` (timer state machine, time parsing/formatting, dynamic theme
color selection) and `src/settings.ts` (preset list editing and persistence).
JavaScript numbers holding second counts are modelled as `Int` where the code
can store arbitrary values (the engine state) and as `Nat` where the code only
ever produces digit-parsed non-negative values (the parsers).  DOM and Tauri
shell effects (class lists, tray rebuilds, window focus) are dropped; the
notification side effect of a countdown completing is surfaced as a `Bool`
output of the tick step.
-/

namespace Timebar

/-- JavaScript `c` matching the regex class `\d`: one of the characters 0-9. -/
def isDigitChar (c : Char) : Bool := 48 ≤ c.toNat && c.toNat ≤ 57

/-- Numeric value of a digit character, as `parseInt` assigns to it. -/
def digitVal (c : Char) : Nat := c.toNat - 48

/-- Whitespace for JavaScript `String.prototype.trim` (the forms that matter
for this codebase: space, tab, newline, carriage return). -/
def isJsSpace (c : Char) : Bool := c = ' ' || c = '\t' || c = '\n' || c = '\r'

/-- JavaScript `String.prototype.trim` on the character list. -/
def trimChars (l : List Char) : List Char :=
  ((l.dropWhile isJsSpace).reverse.dropWhile isJsSpace).reverse

/-- JavaScript `input.trim()`. -/
def jsTrim (s : String) : String := ⟨trimChars s.data⟩

/-- The anchored regex `^(\d{1,2}):(\d{2}):(\d{2})$` from `parseTimeInput` /
`parseHHMMSS`: on success returns the `parseInt` values of the three captured
fields (hours, minutes, seconds).  A match is a string of exactly 7 or 8
characters with colons separating the digit groups. -/
def matchHMS : List Char → Option (Nat × Nat × Nat)
  | [h1, c1, m1, m2, c2, s1, s2] =>
    if isDigitChar h1 && c1 == ':' && isDigitChar m1 && isDigitChar m2 && c2 == ':'
        && isDigitChar s1 && isDigitChar s2 then
      some (digitVal h1, 10 * digitVal m1 + digitVal m2, 10 * digitVal s1 + digitVal s2)
    else none
  | [h1, h2, c1, m1, m2, c2, s1, s2] =>
    if isDigitChar h1 && isDigitChar h2 && c1 == ':' && isDigitChar m1 && isDigitChar m2
        && c2 == ':' && isDigitChar s1 && isDigitChar s2 then
      some (10 * digitVal h1 + digitVal h2, 10 * digitVal m1 + digitVal m2,
        10 * digitVal s1 + digitVal s2)
    else none
  | _ => none

/-- The anchored regex `^(\d{1,2}):(\d{2})$` from `parseTimeInput`: on success
returns the `parseInt` values of the two captured fields (minutes, seconds). -/
def matchMS : List Char → Option (Nat × Nat)
  | [m1, c1, s1, s2] =>
    if isDigitChar m1 && c1 == ':' && isDigitChar s1 && isDigitChar s2 then
      some (digitVal m1, 10 * digitVal s1 + digitVal s2)
    else none
  | [m1, m2, c1, s1, s2] =>
    if isDigitChar m1 && isDigitChar m2 && c1 == ':' && isDigitChar s1 && isDigitChar s2 then
      some (10 * digitVal m1 + digitVal m2, 10 * digitVal s1 + digitVal s2)
    else none
  | _ => none

/-- The distinct failure modes of `parseTimeInput` in `src/main.ts`, told apart
in the source by which `console.error` message accompanies the `null` return:
no regex matches (`InvalidFormat`), a range check fails (`OutOfRange`), or the
computed total is zero (`ZeroDuration`). -/
inductive ParseError
  | InvalidFormat
  | OutOfRange
  | ZeroDuration
  deriving DecidableEq, Repr

/-- Embedding of `parseTimeInput` from `src/main.ts`: trims, tries `HH:MM:SS` then `MM:SS`,
validates ranges (the `< 0` checks of the source are vacuous here because
digit fields are `Nat`), and rejects a zero total. -/
def parseTimeInput (input : String) : Except ParseError Nat :=
  let trimmed := jsTrim input
  match matchHMS trimmed.data with
  | some (hours, minutes, seconds) =>
    if 60 ≤ minutes ∨ 60 ≤ seconds then .error .OutOfRange
    else
      let totalSeconds := hours * 3600 + minutes * 60 + seconds
      if totalSeconds = 0 then .error .ZeroDuration
      else .ok totalSeconds
  | none =>
    match matchMS trimmed.data with
    | some (minutes, seconds) =>
      if 60 ≤ seconds then .error .OutOfRange
      else
        let totalSeconds := minutes * 60 + seconds
        if totalSeconds = 0 then .error .ZeroDuration
        else .ok totalSeconds
    | none => .error .InvalidFormat

/-- JavaScript `str.padStart(2, "0")`. -/
def padStart2 (s : String) : String :=
  if s.length < 2 then ⟨List.replicate (2 - s.length) '0' ++ s.data⟩ else s

/-- The display string built by `updateDisplay` in `src/main.ts`: `HH:MM:SS`
when at least one full hour, otherwise `MM:SS`, every field zero-padded to two
digits (`Nat.repr` is JavaScript `Number.prototype.toString` on these
non-negative integers). -/
def formatTime (t : Nat) : String :=
  let hours := t / 3600
  let minutes := (t % 3600) / 60
  let seconds := t % 60
  if 0 < hours then
    padStart2 (Nat.repr hours) ++ ":" ++ padStart2 (Nat.repr minutes) ++ ":"
      ++ padStart2 (Nat.repr seconds)
  else
    padStart2 (Nat.repr minutes) ++ ":" ++ padStart2 (Nat.repr seconds)

/-- Embedding of `TimerMode` from `src/main.ts`. -/
inductive TimerMode
  | countdown
  | stopwatch
  deriving DecidableEq, Repr

/-- Embedding of `TimerState` from `src/main.ts`.  Second counts are `Int`: the code never
validates what `setTime` stores, so arbitrary integers can land here. -/
structure TimerState where
  mode : TimerMode
  isRunning : Bool
  currentTime : Int
  totalTime : Int
  isEditMode : Bool
  deriving DecidableEq, Repr

/-- The state `src/main.ts` creates at startup: countdown at the 3-minute
default, stopped. -/
def initialState : TimerState :=
  { mode := .countdown, isRunning := false, currentTime := 180, totalTime := 180,
    isEditMode := false }

/-- Embedding of `pauseTimer` from `src/main.ts`: a no-op unless running; otherwise clears
`isRunning` and cancels the interval handle (the handle is not modelled
separately — it is live exactly when `isRunning`). -/
def pauseTimer (st : TimerState) : TimerState :=
  if st.isRunning then { st with isRunning := false } else st

/-- Embedding of `stopTimer` from `src/main.ts`, which just delegates to `pauseTimer`. -/
def stopTimer (st : TimerState) : TimerState := pauseTimer st

/-- Embedding of `startTimer` from `src/main.ts`: a no-op when already running (the
re-entrancy guard), otherwise sets `isRunning` and registers the interval. -/
def startTimer (st : TimerState) : TimerState :=
  if st.isRunning then st else { st with isRunning := true }

/-- Embedding of `onTimerComplete` from `src/main.ts`: stops the timer.  The notification
sound and the 3-second visual flash are side effects reported by the caller. -/
def onTimerComplete (st : TimerState) : TimerState := stopTimer st

/-- The body of the `setInterval` callback registered by `startTimer`:
countdown decrements clamped at 0 and fires completion on hitting 0,
stopwatch increments.  The `Bool` is true exactly when `onTimerComplete`
ran (i.e. the completion notification fired). -/
def tickBody (st : TimerState) : TimerState × Bool :=
  match st.mode with
  | .countdown =>
    let st1 := { st with currentTime := max 0 (st.currentTime - 1) }
    if st1.currentTime = 0 then (onTimerComplete st1, true) else (st1, false)
  | .stopwatch => ({ st with currentTime := st.currentTime + 1 }, false)

/-- One elapsed second of wall time: the interval callback runs only while the
interval handle is live, i.e. while `isRunning`. -/
def tick (st : TimerState) : TimerState × Bool :=
  if st.isRunning then tickBody st else (st, false)

/-- Running `n` elapsed seconds; the second component counts how many times the
completion notification fired. -/
def runTicks : Nat → TimerState → TimerState × Nat
  | 0, st => (st, 0)
  | n + 1, st =>
    let r1 := tick st
    let r2 := runTicks n r1.1
    (r2.1, (if r1.2 then 1 else 0) + r2.2)

/-- Embedding of `exitEditMode` from `src/main.ts`, with the edit field's text passed in
explicitly (the source reads it from the DOM input element).  When `save` is
set and the text parses, current and total time both become the parsed value;
any parse failure is silently discarded.  Either way edit mode ends. -/
def exitEditMode (save : Bool) (input : String) (st : TimerState) : TimerState :=
  let st1 :=
    if save then
      match parseTimeInput input with
      | .ok parsedTime => { st with currentTime := (parsedTime : Int), totalTime := (parsedTime : Int) }
      | .error _ => st
    else st
  { st1 with isEditMode := false }

/-- Embedding of `enterEditMode` from `src/main.ts`: pauses a running timer and raises the
edit flag (the DOM input seeding is display-only). -/
def enterEditMode (st : TimerState) : TimerState :=
  let st1 := if st.isRunning then pauseTimer st else st
  { st1 with isEditMode := true }

/-- Embedding of `toggleMode` from `src/main.ts`: cancels an active edit, stops the timer,
flips the mode, and resets `currentTime` to the countdown target or 0. -/
def toggleMode (st : TimerState) : TimerState :=
  let st0 := if st.isEditMode then exitEditMode false "" st else st
  let st1 := stopTimer st0
  let st2 := { st1 with
    mode := if st1.mode = TimerMode.countdown then TimerMode.stopwatch else TimerMode.countdown }
  { st2 with
    currentTime := if st2.mode = TimerMode.countdown then st2.totalTime else 0 }

/-- Embedding of `resetTimer` from `src/main.ts`: stops the timer and resets `currentTime`
(the `timer-complete` class removal is display-only). -/
def resetTimer (st : TimerState) : TimerState :=
  let st1 := stopTimer st
  { st1 with
    currentTime := if st1.mode = TimerMode.countdown then st1.totalTime else 0 }

/-- Embedding of `setTime` from `src/main.ts`: cancels an active edit, stops the timer, and
stores the argument as both current and total time — with no validation of the
argument whatsoever. -/
def setTime (seconds : Int) (st : TimerState) : TimerState :=
  let st0 := if st.isEditMode then exitEditMode false "" st else st
  let st1 := stopTimer st0
  { st1 with currentTime := seconds, totalTime := seconds }

/-- Embedding of `PresetTime` from `src/settings.ts`. -/
structure PresetTime where
  seconds : Nat
  label : String
  deriving DecidableEq, Repr

/-- Embedding of `parseHHMMSS` from `src/settings.ts`: only the `HH:MM:SS` form, rejecting
empty input, range violations and a zero total (all as `null` there, `none`
here). -/
def parseHHMMSS (input : String) : Option Nat :=
  let trimmed := jsTrim input
  if trimmed = "" then none
  else
    match matchHMS trimmed.data with
    | none => none
    | some (hours, minutes, seconds) =>
      if 60 ≤ minutes ∨ 60 ≤ seconds then none
      else
        let totalSeconds := hours * 3600 + minutes * 60 + seconds
        if totalSeconds = 0 then none else some totalSeconds

/-- Embedding of `generateLabel` from `src/settings.ts`: comma-joined English phrase of the
non-zero components, with "0 seconds" as the all-zero fallback. -/
def generateLabel (seconds : Nat) : String :=
  let hours := seconds / 3600
  let minutes := (seconds % 3600) / 60
  let secs := seconds % 60
  let parts : List String := []
  let parts := if 0 < hours then
    parts ++ [if hours = 1 then "1 hour" else Nat.repr hours ++ " hours"] else parts
  let parts := if 0 < minutes then
    parts ++ [if minutes = 1 then "1 minute" else Nat.repr minutes ++ " minutes"] else parts
  let parts := if 0 < secs ∨ parts.length = 0 then
    parts ++ [if secs = 1 then "1 second" else Nat.repr secs ++ " seconds"] else parts
  String.intercalate ", " parts

/-- Embedding of `validateInput` from `src/settings.ts`, reduced to its verdict: the
trimmed field text must be non-empty and parse. -/
def entryValid (v : String) : Bool :=
  let value := jsTrim v
  if value = "" then false else (parseHHMMSS value).isSome

/-- The two ways `savePresets` in `src/settings.ts` rejects a save: some field
is invalid ("Please fix invalid time formats"), or no presets remain
("Please add at least one preset time"). -/
inductive SaveError
  | InvalidEntry
  | EmptyListError
  deriving DecidableEq, Repr

/-- Embedding of `savePresets` from `src/settings.ts`, over the list of field texts and the
stored preset list: collects the parably valid entries, but rejects the whole
batch — leaving the store untouched — if any field is empty/invalid or if the
new list is empty; otherwise the store becomes exactly the new list of parsed
entries. -/
def savePresets (inputs : List String) (stored : List PresetTime) :
    List PresetTime × Option SaveError :=
  let newPresets := inputs.filterMap fun v =>
    match parseHHMMSS (jsTrim v) with
    | some s => some ⟨s, generateLabel s⟩
    | none => none
  let hasError := inputs.any fun v => ! entryValid v
  if hasError then (stored, some .InvalidEntry)
  else if newPresets = [] then (stored, some .EmptyListError)
  else (newPresets, none)

/-- The failure mode of `deletePreset` in `src/settings.ts`: the list may
never become empty ("You must have at least one preset!"). -/
inductive DeleteError
  | LastPresetError
  deriving DecidableEq, Repr

/-- Embedding of `deletePreset` from `src/settings.ts`: refuses outright on a singleton
list; otherwise removes the entry at `index` (after the user confirms —
`confirmDelete` stands for the `confirm(...)` dialog's answer). -/
def deletePreset (index : Nat) (confirmDelete : Bool) (presets : List PresetTime) :
    List PresetTime × Option DeleteError :=
  if presets.length = 1 then (presets, some .LastPresetError)
  else if confirmDelete then (presets.eraseIdx index, none)
  else (presets, none)

/-- The gradient chosen by `updateDynamicColor` in `src/main.ts` for a given
progress ratio (the store lookup and CSS assignment around it are effects).
Progress is exact arithmetic here; the decimal literals are the source's. -/
def updateDynamicColor (progress : ℚ) : String :=
  if progress > 0.9 then "linear-gradient(90deg, #065f46 0%, #10b981 100%)"
  else if progress > 0.8 then "linear-gradient(90deg, #16a34a 0%, #4ade80 100%)"
  else if progress > 0.7 then "linear-gradient(90deg, #22c55e 0%, #86efac 100%)"
  else if progress > 0.6 then "linear-gradient(90deg, #65a30d 0%, #a3e635 100%)"
  else if progress > 0.5 then "linear-gradient(90deg, #ca8a04 0%, #fbbf24 100%)"
  else if progress > 0.4 then "linear-gradient(90deg, #ea580c 0%, #fb923c 100%)"
  else if progress > 0.3 then "linear-gradient(90deg, #dc2626 0%, #f97316 100%)"
  else if progress > 0.2 then "linear-gradient(90deg, #b91c1c 0%, #ef4444 100%)"
  else if progress > 0.1 then "linear-gradient(90deg, #991b1b 0%, #dc2626 100%)"
  else "linear-gradient(90deg, #7f1d1d 0%, #b91c1c 100%)"

/-- The state invariant of §3 of the spec: a non-negative countdown target,
and in countdown mode a current time within `[0, totalTime]`. -/
def StateInv (st : TimerState) : Prop :=
  0 ≤ st.totalTime ∧
    (st.mode = TimerMode.countdown → 0 ≤ st.currentTime ∧ st.currentTime ≤ st.totalTime)

instance (st : TimerState) : Decidable (StateInv st) := by
  unfold StateInv; infer_instance

/-! ### Helper lemmas about the tick loop -/

theorem runTicks_append (a b : Nat) (st : TimerState) :
    runTicks (a + b) st =
      ((runTicks b (runTicks a st).1).1,
        (runTicks a st).2 + (runTicks b (runTicks a st).1).2) := by
  induction a generalizing st with
  | zero => simp [runTicks]
  | succ n ih =>
    have hab : n + 1 + b = (n + b) + 1 := by omega
    rw [hab]
    simp only [runTicks, ih]
    simp only [Prod.mk.injEq, true_and]
    omega

theorem runTicks_stopped (n : Nat) (st : TimerState) (h : st.isRunning = false) :
    runTicks n st = (st, 0) := by
  induction n with
  | zero => rfl
  | succ n ih => simp [runTicks, tick, h, ih]

/-- C2: starting the engine in countdown mode with 3 total and 3 current
seconds and letting 3 ticks elapse ends with `currentTime = 0`, the timer no
longer running, and the completion notification fired exactly once — and it is
never re-fired by any amount of additional elapsed time, because completion
stopped the interval. -/
theorem claim2_countdown_three_ticks :
    (runTicks 3 (startTimer ⟨TimerMode.countdown, false, 3, 3, false⟩)).1 =
      (⟨TimerMode.countdown, false, 0, 3, false⟩ : TimerState) ∧
    (runTicks 3 (startTimer ⟨TimerMode.countdown, false, 3, 3, false⟩)).2 = 1 ∧
    (∀ k : Nat,
      (runTicks (3 + k) (startTimer ⟨TimerMode.countdown, false, 3, 3, false⟩)).2 = 1) := by
  refine ⟨by decide, by decide, fun k => ?_⟩
  rw [runTicks_append 3 k]
  have h3 : runTicks 3 (startTimer ⟨TimerMode.countdown, false, 3, 3, false⟩) =
      (⟨TimerMode.countdown, false, 0, 3, false⟩, 1) := by decide
  rw [h3, runTicks_stopped k _ rfl]
  rfl

/-- C6: from countdown mode, `toggleMode` switches to stopwatch with
`currentTime = 0`, and a second `toggleMode` restores countdown with
`currentTime = totalTime` equal to the original target; both transitions leave
the timer stopped. -/
theorem claim6_toggleMode_roundtrip (st : TimerState) (h : st.mode = TimerMode.countdown) :
    (toggleMode st).mode = TimerMode.stopwatch ∧
    (toggleMode st).currentTime = 0 ∧
    (toggleMode st).isRunning = false ∧
    (toggleMode (toggleMode st)).mode = TimerMode.countdown ∧
    (toggleMode (toggleMode st)).currentTime = st.totalTime ∧
    (toggleMode (toggleMode st)).totalTime = st.totalTime ∧
    (toggleMode (toggleMode st)).isRunning = false := by
  obtain ⟨mode, run, cur, tot, edit⟩ := st
  simp only [TimerState.mk.injEq] at h ⊢
  subst h
  cases run <;> cases edit <;>
    simp [toggleMode, exitEditMode, stopTimer, pauseTimer]

theorem claim6_witness :
    (toggleMode ⟨TimerMode.countdown, true, 45, 120, false⟩).currentTime = 0 ∧
    (toggleMode (toggleMode ⟨TimerMode.countdown, true, 45, 120, false⟩)).currentTime = 120 :=
  ⟨(claim6_toggleMode_roundtrip ⟨TimerMode.countdown, true, 45, 120, false⟩ rfl).2.1,
   (claim6_toggleMode_roundtrip ⟨TimerMode.countdown, true, 45, 120, false⟩ rfl).2.2.2.2.1⟩

/-- C10: `setTime` performs no validation at all — for every integer argument,
including 0 and negative values, it stops the timer, cancels any active edit,
and stores the argument verbatim as both current and total time. -/
theorem claim10_setTime_unvalidated (s : Int) (st : TimerState) :
    setTime s st = ⟨st.mode, false, s, s, false⟩ := by
  obtain ⟨mode, run, cur, tot, edit⟩ := st
  cases run <;> cases edit <;>
    simp [setTime, exitEditMode, stopTimer, pauseTimer]

/-- C8: deleting from a singleton preset list fails with `LastPresetError`
and leaves the list unchanged regardless of the confirmation answer; on a
longer list (with a valid index, and the deletion confirmed) exactly the entry
at `index` is removed, the others keeping their order. -/
theorem claim8_deletePreset (index : Nat) (presets : List PresetTime) :
    (presets.length = 1 → ∀ confirmDelete,
      deletePreset index confirmDelete presets = (presets, some DeleteError.LastPresetError)) ∧
    (1 < presets.length → index < presets.length →
      deletePreset index true presets =
        (presets.take index ++ presets.drop (index + 1), none)) := by
  constructor
  · intro h confirmDelete
    simp [deletePreset, h]
  · intro h1 _
    rw [deletePreset, if_neg (by omega), if_pos rfl, List.eraseIdx_eq_take_drop_succ]

/-- C4: `savePresets` is all-or-nothing — any empty or unparsable field
rejects the whole batch with the invalid-entry alert, an empty batch is
rejected with the add-at-least-one alert, and in every failing case the stored
preset list is exactly what it was before the call. -/
theorem claim4_savePresets_atomic (inputs : List String) (stored : List PresetTime) :
    ((∃ v ∈ inputs, entryValid v = false) →
      savePresets inputs stored = (stored, some SaveError.InvalidEntry)) ∧
    (inputs = [] → savePresets inputs stored = (stored, some SaveError.EmptyListError)) ∧
    ((savePresets inputs stored).2.isSome → (savePresets inputs stored).1 = stored) := by
  refine ⟨?_, ?_, ?_⟩
  · rintro ⟨v, hv, hval⟩
    have hany : (inputs.any fun v => ! entryValid v) = true :=
      List.any_eq_true.mpr ⟨v, hv, by simp [hval]⟩
    simp [savePresets, hany]
  · rintro rfl
    simp [savePresets]
  · intro h
    simp only [savePresets] at h ⊢
    split_ifs at h ⊢ <;> simp_all

theorem claim4_witness :
    savePresets ["xx"] [⟨180, "3 minutes"⟩] =
      ([⟨180, "3 minutes"⟩], some SaveError.InvalidEntry) ∧
    savePresets [] [⟨180, "3 minutes"⟩] =
      ([⟨180, "3 minutes"⟩], some SaveError.EmptyListError) :=
  ⟨(claim4_savePresets_atomic ["xx"] [⟨180, "3 minutes"⟩]).1
      ⟨"xx", by decide, by decide⟩,
   (claim4_savePresets_atomic [] [⟨180, "3 minutes"⟩]).2.1 rfl⟩

theorem claim8_witness :
    deletePreset 0 true [⟨180, "3 minutes"⟩] =
      ([⟨180, "3 minutes"⟩], some DeleteError.LastPresetError) ∧
    deletePreset 1 true [⟨180, "a"⟩, ⟨300, "b"⟩, ⟨600, "c"⟩] =
      ([⟨180, "a"⟩, ⟨600, "c"⟩], none) :=
  ⟨(claim8_deletePreset 0 [⟨180, "3 minutes"⟩]).1 (by decide) true,
   (claim8_deletePreset 1 [⟨180, "a"⟩, ⟨300, "b"⟩, ⟨600, "c"⟩]).2 (by decide) (by decide)⟩

/-! ### Invariant preservation (helper lemmas for the state-machine claim) -/

theorem tick_stateInv (st : TimerState) (h : StateInv st) : StateInv (tick st).1 := by
  obtain ⟨mode, run, cur, tot, edit⟩ := st
  obtain ⟨htot, hcd⟩ := h
  cases run with
  | false => exact ⟨htot, hcd⟩
  | true =>
    cases mode with
    | countdown =>
      obtain ⟨h1, h2⟩ := hcd rfl
      have h1x : (0:Int) ≤ cur := h1
      have h2x : cur ≤ tot := h2
      have htx : (0:Int) ≤ tot := htot
      by_cases hz : max 0 (cur - 1) = 0
      · have he : (tick ⟨TimerMode.countdown, true, cur, tot, edit⟩).1 =
            ⟨TimerMode.countdown, false, max 0 (cur - 1), tot, edit⟩ := by
          simp [tick, tickBody, onTimerComplete, stopTimer, pauseTimer, hz]
        rw [he]
        refine ⟨htot, fun _ => ⟨?_, ?_⟩⟩
        · show (0:Int) ≤ max 0 (cur - 1)
          omega
        · show max 0 (cur - 1) ≤ tot
          omega
      · have he : (tick ⟨TimerMode.countdown, true, cur, tot, edit⟩).1 =
            ⟨TimerMode.countdown, true, max 0 (cur - 1), tot, edit⟩ := by
          simp [tick, tickBody, hz]
        rw [he]
        refine ⟨htot, fun _ => ⟨?_, ?_⟩⟩
        · show (0:Int) ≤ max 0 (cur - 1)
          omega
        · show max 0 (cur - 1) ≤ tot
          omega
    | stopwatch => exact ⟨htot, fun hx => nomatch hx⟩

theorem resetTimer_stateInv (st : TimerState) (h : StateInv st) :
    StateInv (resetTimer st) := by
  obtain ⟨mode, run, cur, tot, edit⟩ := st
  obtain ⟨htot, hcd⟩ := h
  cases mode <;> cases run <;>
    simp_all [StateInv, resetTimer, stopTimer, pauseTimer]

theorem setTime_stateInv (st : TimerState) (s : Int) (hs : 0 < s) :
    StateInv (setTime s st) := by
  obtain ⟨mode, run, cur, tot, edit⟩ := st
  cases run <;> cases edit <;>
    simp_all [StateInv, setTime, exitEditMode, stopTimer, pauseTimer] <;>
      exact ⟨le_of_lt hs, fun _ => le_of_lt hs⟩

theorem toggleMode_stateInv (st : TimerState) (h : StateInv st) :
    StateInv (toggleMode st) := by
  obtain ⟨mode, run, cur, tot, edit⟩ := st
  obtain ⟨htot, hcd⟩ := h
  cases mode <;> cases run <;> cases edit <;>
    simp_all [StateInv, toggleMode, exitEditMode, stopTimer, pauseTimer]

theorem exitEditMode_stateInv (st : TimerState) (h : StateInv st) (input : String) :
    StateInv (exitEditMode true input st) := by
  obtain ⟨mode, run, cur, tot, edit⟩ := st
  obtain ⟨htot, hcd⟩ := h
  rcases hp : parseTimeInput input with e | v <;>
    cases mode <;>
      simp_all [StateInv, exitEditMode, hp]

theorem tick_complete_stops (st : TimerState) (hm : st.mode = TimerMode.countdown)
    (hz : (tick st).1.currentTime = 0) : (tick st).1.isRunning = false := by
  obtain ⟨mode, run, cur, tot, edit⟩ := st
  subst hm
  cases run with
  | false => rfl
  | true =>
    simp only [tick, tickBody, onTimerComplete, stopTimer, pauseTimer] at *
    split_ifs at * <;> simp_all <;> omega

theorem tick_stopwatch_increments (st : TimerState) (hm : st.mode = TimerMode.stopwatch)
    (hr : st.isRunning = true) : (tick st).1.currentTime = st.currentTime + 1 := by
  obtain ⟨mode, run, cur, tot, edit⟩ := st
  subst hm; subst hr
  simp [tick, tickBody]

/-- C5: every operation preserves the countdown invariant
`0 ≤ currentTime ≤ totalTime` (under the spec's argument preconditions, which
for `setTime` is `seconds > 0`); a countdown tick that lands on 0 always
leaves the timer stopped; and in stopwatch mode a tick only increments the
unbounded `currentTime` by one. -/
theorem claim5_invariant_preservation (st : TimerState) (h : StateInv st) :
    StateInv (tick st).1 ∧
    StateInv (resetTimer st) ∧
    (∀ s : Int, 0 < s → StateInv (setTime s st)) ∧
    StateInv (toggleMode st) ∧
    (∀ input : String, StateInv (exitEditMode true input st)) ∧
    (st.mode = TimerMode.countdown → (tick st).1.currentTime = 0 →
      (tick st).1.isRunning = false) ∧
    (st.mode = TimerMode.stopwatch → st.isRunning = true →
      (tick st).1.currentTime = st.currentTime + 1) :=
  ⟨tick_stateInv st h, resetTimer_stateInv st h, fun s hs => setTime_stateInv st s hs,
    toggleMode_stateInv st h, fun input => exitEditMode_stateInv st h input,
    fun hm hz => tick_complete_stops st hm hz,
    fun hm hr => tick_stopwatch_increments st hm hr⟩

theorem claim5_witness :
    StateInv (tick ⟨TimerMode.countdown, true, 2, 5, false⟩).1 ∧
    StateInv (setTime 7 ⟨TimerMode.countdown, true, 2, 5, false⟩) ∧
    (tick ⟨TimerMode.countdown, true, 1, 5, false⟩).1.isRunning = false :=
  ⟨(claim5_invariant_preservation ⟨TimerMode.countdown, true, 2, 5, false⟩ (by decide)).1,
   (claim5_invariant_preservation ⟨TimerMode.countdown, true, 2, 5, false⟩
      (by decide)).2.2.1 7 (by decide),
   (claim5_invariant_preservation ⟨TimerMode.countdown, true, 1, 5, false⟩
      (by decide)).2.2.2.2.2.1 rfl (by decide)⟩

/-! ### Dynamic-theme color bands -/

theorem updateDynamicColor_low (p : ℚ) (h : p ≤ 0.1) :
    updateDynamicColor p = "linear-gradient(90deg, #7f1d1d 0%, #b91c1c 100%)" := by
  have h9 : ¬ p > 0.9 := by push_neg; linarith
  have h8 : ¬ p > 0.8 := by push_neg; linarith
  have h7 : ¬ p > 0.7 := by push_neg; linarith
  have h6 : ¬ p > 0.6 := by push_neg; linarith
  have h5 : ¬ p > 0.5 := by push_neg; linarith
  have h4 : ¬ p > 0.4 := by push_neg; linarith
  have h3 : ¬ p > 0.3 := by push_neg; linarith
  have h2 : ¬ p > 0.2 := by push_neg; linarith
  have h1 : ¬ p > 0.1 := by push_neg; linarith
  unfold updateDynamicColor
  rw [if_neg h9, if_neg h8, if_neg h7, if_neg h6, if_neg h5, if_neg h4, if_neg h3,
    if_neg h2, if_neg h1]

theorem updateDynamicColor_top (p : ℚ) (h : p > 0.9) :
    updateDynamicColor p = "linear-gradient(90deg, #065f46 0%, #10b981 100%)" := by
  unfold updateDynamicColor
  rw [if_pos h]

/-- C9: the dynamic theme maps progress to ten bands cut by strict `>`
comparisons at 0.9 down to 0.1 with `[0, 0.1]` as the final catch-all: one
representative from each band yields ten pairwise-distinct gradients (so 0.95
and 0.85 get different colors), every ratio in the bottom band gets the same
lowest-band color (so 0.0 and 0.05 agree), and every ratio above 0.9 gets the
top-band color. -/
theorem claim9_dynamicColor_bands :
    updateDynamicColor 0.95 ≠ updateDynamicColor 0.85 ∧
    updateDynamicColor 0 = updateDynamicColor 0.05 ∧
    (([0.95, 0.85, 0.75, 0.65, 0.55, 0.45, 0.35, 0.25, 0.15, 0.05] : List ℚ).map
      updateDynamicColor).Nodup ∧
    (∀ p : ℚ, 0 ≤ p → p ≤ 0.1 → updateDynamicColor p = updateDynamicColor 0) ∧
    (∀ p : ℚ, 0.9 < p → updateDynamicColor p = updateDynamicColor 1) := by
  have hmap : (([0.95, 0.85, 0.75, 0.65, 0.55, 0.45, 0.35, 0.25, 0.15, 0.05] : List ℚ).map
      updateDynamicColor) =
      ["linear-gradient(90deg, #065f46 0%, #10b981 100%)",
       "linear-gradient(90deg, #16a34a 0%, #4ade80 100%)",
       "linear-gradient(90deg, #22c55e 0%, #86efac 100%)",
       "linear-gradient(90deg, #65a30d 0%, #a3e635 100%)",
       "linear-gradient(90deg, #ca8a04 0%, #fbbf24 100%)",
       "linear-gradient(90deg, #ea580c 0%, #fb923c 100%)",
       "linear-gradient(90deg, #dc2626 0%, #f97316 100%)",
       "linear-gradient(90deg, #b91c1c 0%, #ef4444 100%)",
       "linear-gradient(90deg, #991b1b 0%, #dc2626 100%)",
       "linear-gradient(90deg, #7f1d1d 0%, #b91c1c 100%)"] := by
    norm_num [updateDynamicColor]
  have e85 : updateDynamicColor 0.85 = "linear-gradient(90deg, #16a34a 0%, #4ade80 100%)" := by
    unfold updateDynamicColor
    norm_num
  refine ⟨?_, ?_, ?_, ?_, ?_⟩
  · rw [updateDynamicColor_top 0.95 (by norm_num), e85]
    decide
  · rw [updateDynamicColor_low 0 (by norm_num), updateDynamicColor_low 0.05 (by norm_num)]
  · rw [hmap]; decide
  · intro p h0 h1
    rw [updateDynamicColor_low p h1, updateDynamicColor_low 0 (by norm_num)]
  · intro p hp
    rw [updateDynamicColor_top p hp, updateDynamicColor_top 1 (by norm_num)]

theorem claim9_witness :
    updateDynamicColor 0.07 = updateDynamicColor 0 ∧
    updateDynamicColor 0.99 = updateDynamicColor 1 :=
  ⟨claim9_dynamicColor_bands.2.2.2.1 0.07 (by norm_num) (by norm_num),
   claim9_dynamicColor_bands.2.2.2.2 0.99 (by norm_num)⟩

/-! ### Time parsing and formatting -/

theorem pad2_repr : ∀ n : Nat, n < 100 →
    padStart2 (Nat.repr n) = ⟨[Nat.digitChar (n / 10), Nat.digitChar (n % 10)]⟩ := by
  decide
theorem isDigitChar_digitChar : ∀ d : Nat, d < 10 → isDigitChar (Nat.digitChar d) = true := by
  decide
theorem digitVal_digitChar : ∀ d : Nat, d < 10 → digitVal (Nat.digitChar d) = d := by
  decide
theorem isJsSpace_digitChar : ∀ d : Nat, d < 10 → isJsSpace (Nat.digitChar d) = false := by
  decide
theorem matchHMS_five (x1 x2 x3 x4 x5 : Char) : matchHMS [x1, x2, x3, x4, x5] = none := rfl
theorem dropWhile_false_head {p : Char → Bool} {a : Char} (t : List Char) (h : p a = false) :
    List.dropWhile p (a :: t) = a :: t := by
  simp [List.dropWhile_cons, h]
theorem trim5 (a b c d : Char) (ha : isJsSpace a = false) (hd : isJsSpace d = false) :
    trimChars [a, b, ':', c, d] = [a, b, ':', c, d] := by
  unfold trimChars
  rw [dropWhile_false_head _ ha]
  have hrev : ([a, b, ':', c, d]).reverse = [d, c, ':', b, a] := by simp
  rw [hrev, dropWhile_false_head _ hd]
  simp
theorem trim8 (a b c d e f : Char) (ha : isJsSpace a = false) (hf : isJsSpace f = false) :
    trimChars [a, b, ':', c, d, ':', e, f] = [a, b, ':', c, d, ':', e, f] := by
  unfold trimChars
  rw [dropWhile_false_head _ ha]
  have hrev : ([a, b, ':', c, d, ':', e, f]).reverse = [f, e, ':', d, c, ':', b, a] := by simp
  rw [hrev, dropWhile_false_head _ hf]
  simp
theorem format_data_lt (s : Nat) (hlt : s < 3600) :
    (formatTime s).data =
      [Nat.digitChar (s / 60 / 10), Nat.digitChar (s / 60 % 10), ':',
       Nat.digitChar (s % 60 / 10), Nat.digitChar (s % 60 % 10)] := by
  have h1 : s / 3600 = 0 := Nat.div_eq_of_lt hlt
  have h2 : s % 3600 = s := Nat.mod_eq_of_lt hlt
  have h3 : s / 60 < 100 := by omega
  have h4 : s % 60 < 100 := by omega
  simp only [formatTime, h1, h2, lt_irrefl, if_false]
  rw [pad2_repr _ h3, pad2_repr _ h4]
  rw [String.data_append, String.data_append]
  rfl
theorem format_data_ge (s : Nat) (hge : 3600 ≤ s) (hlt : s < 360000) :
    (formatTime s).data =
      [Nat.digitChar (s / 3600 / 10), Nat.digitChar (s / 3600 % 10), ':',
       Nat.digitChar (s % 3600 / 60 / 10), Nat.digitChar (s % 3600 / 60 % 10), ':',
       Nat.digitChar (s % 60 / 10), Nat.digitChar (s % 60 % 10)] := by
  have h1 : 0 < s / 3600 := by omega
  have h3 : s / 3600 < 100 := by omega
  have h4 : s % 3600 / 60 < 100 := by omega
  have h5 : s % 60 < 100 := by omega
  simp only [formatTime, if_pos h1]
  rw [pad2_repr _ h3, pad2_repr _ h4, pad2_repr _ h5]
  rw [String.data_append, String.data_append, String.data_append, String.data_append]
  rfl

theorem matchMS_5 (x1 x2 x3 x4 x5 : Char) :
    matchMS [x1, x2, x3, x4, x5] =
      if isDigitChar x1 && isDigitChar x2 && x3 == ':' && isDigitChar x4 && isDigitChar x5 then
        some (10 * digitVal x1 + digitVal x2, 10 * digitVal x4 + digitVal x5)
      else none := rfl
theorem matchHMS_8 (x1 x2 x3 x4 x5 x6 x7 x8 : Char) :
    matchHMS [x1, x2, x3, x4, x5, x6, x7, x8] =
      if isDigitChar x1 && isDigitChar x2 && x3 == ':' && isDigitChar x4 && isDigitChar x5
          && x6 == ':' && isDigitChar x7 && isDigitChar x8 then
        some (10 * digitVal x1 + digitVal x2, 10 * digitVal x4 + digitVal x5,
          10 * digitVal x7 + digitVal x8)
      else none := rfl
theorem parseTimeInput_of_HMS (s : String) (h m sec : Nat)
    (hH : matchHMS (jsTrim s).data = some (h, m, sec)) :
    parseTimeInput s =
      if 60 ≤ m ∨ 60 ≤ sec then .error .OutOfRange
      else if h * 3600 + m * 60 + sec = 0 then .error .ZeroDuration
      else .ok (h * 3600 + m * 60 + sec) := by
  simp only [parseTimeInput]
  rw [hH]
theorem parseHHMMSS_of_HMS (s : String) (h m sec : Nat) (hne : ¬ jsTrim s = "")
    (hH : matchHMS (jsTrim s).data = some (h, m, sec)) :
    parseHHMMSS s =
      if 60 ≤ m ∨ 60 ≤ sec then none
      else if h * 3600 + m * 60 + sec = 0 then none
      else some (h * 3600 + m * 60 + sec) := by
  simp only [parseHHMMSS]
  rw [if_neg hne, hH]

theorem parseTimeInput_of_MS (s : String) (m sec : Nat)
    (hH : matchHMS (jsTrim s).data = none)
    (hM : matchMS (jsTrim s).data = some (m, sec)) :
    parseTimeInput s =
      if 60 ≤ sec then .error .OutOfRange
      else if m * 60 + sec = 0 then .error .ZeroDuration
      else .ok (m * 60 + sec) := by
  simp only [parseTimeInput]
  rw [hH, hM]

theorem roundtrip_lt (s : Nat) (h0 : 0 < s) (hlt : s < 3600) :
    parseTimeInput (formatTime s) = .ok s := by
  have hd := format_data_lt s hlt
  have d1 : s / 60 / 10 < 10 := by omega
  have d2 : s / 60 % 10 < 10 := by omega
  have d3 : s % 60 / 10 < 10 := by omega
  have d4 : s % 60 % 10 < 10 := by omega
  have hjt : (jsTrim (formatTime s)).data = (formatTime s).data := by
    show trimChars (formatTime s).data = (formatTime s).data
    rw [hd]
    exact trim5 _ _ _ _ (isJsSpace_digitChar _ d1) (isJsSpace_digitChar _ d4)
  have hH : matchHMS (jsTrim (formatTime s)).data = none := by
    rw [hjt, hd, matchHMS_five]
  have hg : (isDigitChar (Nat.digitChar (s / 60 / 10)) &&
      isDigitChar (Nat.digitChar (s / 60 % 10)) && ((':' : Char) == ':') &&
      isDigitChar (Nat.digitChar (s % 60 / 10)) &&
      isDigitChar (Nat.digitChar (s % 60 % 10))) = true := by
    rw [isDigitChar_digitChar _ d1, isDigitChar_digitChar _ d2, isDigitChar_digitChar _ d3,
      isDigitChar_digitChar _ d4]
    rfl
  have hM : matchMS (jsTrim (formatTime s)).data = some (s / 60, s % 60) := by
    rw [hjt, hd, matchMS_5, if_pos hg]
    rw [digitVal_digitChar _ d1, digitVal_digitChar _ d2, digitVal_digitChar _ d3,
      digitVal_digitChar _ d4]
    simp only [Option.some.injEq, Prod.mk.injEq]
    omega
  rw [parseTimeInput_of_MS _ _ _ hH hM]
  rw [if_neg (by omega : ¬ 60 ≤ s % 60),
    if_neg (by omega : ¬ (s / 60 * 60 + s % 60 = 0))]
  congr 1
  omega
theorem roundtrip_ge (s : Nat) (hge : 3600 ≤ s) (hlt : s < 360000) :
    parseTimeInput (formatTime s) = .ok s := by
  have hd := format_data_ge s hge hlt
  have d1 : s / 3600 / 10 < 10 := by omega
  have d2 : s / 3600 % 10 < 10 := by omega
  have d3 : s % 3600 / 60 / 10 < 10 := by omega
  have d4 : s % 3600 / 60 % 10 < 10 := by omega
  have d5 : s % 60 / 10 < 10 := by omega
  have d6 : s % 60 % 10 < 10 := by omega
  have hjt : (jsTrim (formatTime s)).data = (formatTime s).data := by
    show trimChars (formatTime s).data = (formatTime s).data
    rw [hd]
    exact trim8 _ _ _ _ _ _ (isJsSpace_digitChar _ d1) (isJsSpace_digitChar _ d6)
  have hg : (isDigitChar (Nat.digitChar (s / 3600 / 10)) &&
      isDigitChar (Nat.digitChar (s / 3600 % 10)) && ((':' : Char) == ':') &&
      isDigitChar (Nat.digitChar (s % 3600 / 60 / 10)) &&
      isDigitChar (Nat.digitChar (s % 3600 / 60 % 10)) && ((':' : Char) == ':') &&
      isDigitChar (Nat.digitChar (s % 60 / 10)) &&
      isDigitChar (Nat.digitChar (s % 60 % 10))) = true := by
    rw [isDigitChar_digitChar _ d1, isDigitChar_digitChar _ d2, isDigitChar_digitChar _ d3,
      isDigitChar_digitChar _ d4, isDigitChar_digitChar _ d5, isDigitChar_digitChar _ d6]
    rfl
  have hH : matchHMS (jsTrim (formatTime s)).data =
      some (s / 3600, s % 3600 / 60, s % 60) := by
    rw [hjt, hd, matchHMS_8, if_pos hg]
    rw [digitVal_digitChar _ d1, digitVal_digitChar _ d2, digitVal_digitChar _ d3,
      digitVal_digitChar _ d4, digitVal_digitChar _ d5, digitVal_digitChar _ d6]
    simp only [Option.some.injEq, Prod.mk.injEq]
    omega
  rw [parseTimeInput_of_HMS _ _ _ _ hH]
  rw [if_neg (by omega : ¬ (60 ≤ s % 3600 / 60 ∨ 60 ≤ s % 60)),
    if_neg (by omega : ¬ (s / 3600 * 3600 + s % 3600 / 60 * 60 + s % 60 = 0))]
  congr 1
  omega

/-- C1: for every second count `s` with `0 < s < 100*3600`, parsing the
display string produced by formatting `s` yields `s` back; the round-trip
excludes `s = 0` because the parser rejects zero durations (formatting 0 gives
"00:00", which parses to the `ZeroDuration` error). -/
theorem claim1_format_parse_roundtrip :
    (∀ s : Nat, 0 < s → s < 360000 → parseTimeInput (formatTime s) = .ok s) ∧
    parseTimeInput (formatTime 0) = .error ParseError.ZeroDuration := by
  constructor
  · intro s h0 h1
    rcases lt_or_ge s 3600 with h | h
    · exact roundtrip_lt s h0 h
    · exact roundtrip_ge s h h1
  · rfl

theorem claim1_witness :
    parseTimeInput (formatTime 5400) = .ok 5400 ∧
    parseTimeInput (formatTime 59) = .ok 59 :=
  ⟨claim1_format_parse_roundtrip.1 5400 (by decide) (by decide),
   claim1_format_parse_roundtrip.1 59 (by decide) (by decide)⟩

/-- C3 as stated is false: in the `M{1,2}:SS` form the source only
range-checks the seconds field, so a minutes field of 60-99 is accepted and
`parseTimeInput "60:00"` returns 3600 seconds instead of `OutOfRange`. -/
theorem claim3_counterexample : parseTimeInput "60:00" = Except.ok 3600 := rfl

/-- C3 (amended): in the `H{1,2}:MM:SS` form a minutes or seconds field of 60
or more fails with `OutOfRange` (and `parseHHMMSS` in the settings window
likewise rejects it); in the `M{1,2}:SS` form only a seconds field of 60 or
more fails — a minutes field up to 99 is accepted, so `parse("60:00")`
succeeds with 3600. -/
theorem claim3_amended_range_checks :
    (∀ s h m sec, matchHMS (jsTrim s).data = some (h, m, sec) → 60 ≤ m ∨ 60 ≤ sec →
      parseTimeInput s = .error ParseError.OutOfRange) ∧
    (∀ s m sec, matchHMS (jsTrim s).data = none → matchMS (jsTrim s).data = some (m, sec) →
      60 ≤ sec → parseTimeInput s = .error ParseError.OutOfRange) ∧
    (∀ s h m sec, matchHMS (jsTrim s).data = some (h, m, sec) → 60 ≤ m ∨ 60 ≤ sec →
      parseHHMMSS s = none) ∧
    parseTimeInput "60:00" = Except.ok 3600 ∧
    parseTimeInput "01:60:00" = Except.error ParseError.OutOfRange := by
  refine ⟨?_, ?_, ?_, rfl, rfl⟩
  · intro s h m sec hH hrange
    rw [parseTimeInput_of_HMS s h m sec hH, if_pos hrange]
  · intro s m sec hH hM hrange
    rw [parseTimeInput_of_MS s m sec hH hM, if_pos hrange]
  · intro s h m sec hH hrange
    by_cases he : jsTrim s = ""
    · exfalso
      rw [he] at hH
      exact Option.noConfusion hH
    · rw [parseHHMMSS_of_HMS s h m sec he hH, if_pos hrange]

theorem claim3_witness :
    parseTimeInput "02:75:00" = Except.error ParseError.OutOfRange ∧
    parseTimeInput "0:99" = Except.error ParseError.OutOfRange ∧
    parseHHMMSS "02:75:00" = none :=
  ⟨claim3_amended_range_checks.1 "02:75:00" 2 75 0 rfl (Or.inl (by decide)),
   claim3_amended_range_checks.2.1 "0:99" 0 99 rfl rfl (by decide),
   claim3_amended_range_checks.2.2.1 "02:75:00" 2 75 0 rfl (Or.inl (by decide))⟩

/-- C7: any input whose matched fields compute to a total of exactly 0 seconds
fails with `ZeroDuration` (in either accepted form, and likewise as `null`
from the settings parser), and a commit of such an input through
`exitEditMode` leaves the prior current and total time unchanged. -/
theorem claim7_zero_duration :
    (∀ s h m sec, matchHMS (jsTrim s).data = some (h, m, sec) →
      h * 3600 + m * 60 + sec = 0 → parseTimeInput s = .error ParseError.ZeroDuration) ∧
    (∀ s m sec, matchHMS (jsTrim s).data = none → matchMS (jsTrim s).data = some (m, sec) →
      m * 60 + sec = 0 → parseTimeInput s = .error ParseError.ZeroDuration) ∧
    parseTimeInput "00:00" = Except.error ParseError.ZeroDuration ∧
    parseTimeInput "00:00:00" = Except.error ParseError.ZeroDuration ∧
    parseHHMMSS "00:00:00" = none ∧
    (∀ input st, parseTimeInput input = .error ParseError.ZeroDuration →
      (exitEditMode true input st).currentTime = st.currentTime ∧
      (exitEditMode true input st).totalTime = st.totalTime ∧
      (exitEditMode true input st).isEditMode = false) := by
  refine ⟨?_, ?_, rfl, rfl, rfl, ?_⟩
  · intro s h m sec hH htotal
    rw [parseTimeInput_of_HMS s h m sec hH,
      if_neg (by omega : ¬ (60 ≤ m ∨ 60 ≤ sec)), if_pos htotal]
  · intro s m sec hH hM htotal
    rw [parseTimeInput_of_MS s m sec hH hM,
      if_neg (by omega : ¬ 60 ≤ sec), if_pos htotal]
  · intro input st hp
    simp [exitEditMode, hp]

theorem claim7_witness :
    parseTimeInput "0:00" = Except.error ParseError.ZeroDuration ∧
    (exitEditMode true "00:00" ⟨TimerMode.countdown, false, 42, 99, true⟩).currentTime = 42 :=
  ⟨claim7_zero_duration.2.1 "0:00" 0 0 rfl rfl rfl,
   (claim7_zero_duration.2.2.2.2.2 "00:00" ⟨TimerMode.countdown, false, 42, 99, true⟩ rfl).1⟩

end Timebar
